import Mathlib

/-!
Verification of the New Relic API-keys CLI core (`src/main.rs`).

The program is a GraphQL client: four operation builders (query, create,
update, delete) each assemble a fixed GraphQL document plus a variables
mapping (`HashMap<String, serde_json::Value>`), hand them to
`NewRelicClient::execute_query`, which serializes a `GraphQLRequest`
body, performs an HTTP POST, decodes the response into a
`GraphQLResponse` envelope and classifies errors.

The embedding below models the pure data-flow of that code:
`serde_json::Value` as `Json`, the variables `HashMap` as an association
list with replace-on-insert semantics (`hmInsert` / `hmLookup`), the
decoded envelope as `GraphQLResponse`, and `execute_query` from the
point where the envelope has been decoded (the HTTP exchange and the
JSON text parsing are outside the model; `execute_query` here is the
error-classification logic of main.rs lines 145-153).
-/

/-- Model of `serde_json::Value`. -/
inductive Json where
  | null
  | bool (b : Bool)
  | num (n : Int)
  | str (s : String)
  | arr (xs : List Json)
  | obj (kvs : List (String × Json))

/-- `HashMap::insert`: replaces any existing binding for the key, then the
new binding is present.  Entry order in this list model is immaterial
(a `HashMap` is unordered); lookups are the observable behaviour. -/
def hmInsert (m : List (String × Json)) (k : String) (v : Json) : List (String × Json) :=
  (k, v) :: m.filter (fun p => p.1 != k)

/-- `HashMap::get` / `serde_json` object member lookup: first binding wins. -/
def hmLookup : List (String × Json) → String → Option Json
  | [], _ => none
  | (k', v) :: rest, k => if k = k' then some v else hmLookup rest k

/-- `serde_json::Value::get(key)`: member lookup on objects, `None` otherwise. -/
def Json.get : Json → String → Option Json
  | .obj kvs, k => hmLookup kvs k
  | _, _ => none

/-- `struct Location { line: i32, column: i32 }` (main.rs lines 102-106). -/
structure Location where
  line : Int
  column : Int

/-- `struct GraphQLError` (main.rs lines 95-100). -/
structure GraphQLError where
  message : String
  locations : Option (List Location)
  path : Option (List String)

/-- `struct GraphQLResponse` (main.rs lines 89-93): the decoded envelope. -/
structure GraphQLResponse where
  data : Option Json
  errors : Option (List GraphQLError)

/-- `struct GraphQLRequest` (main.rs lines 83-87): the wire request body. -/
structure GraphQLRequest where
  query : String
  «variables» : Option (List (String × Json))

/-- `serde_json` serialization of `GraphQLRequest`: a two-member object;
`Option::None` serializes as JSON null (no `skip_serializing_if` attribute
is present on the field), `Some(map)` as the object of its entries. -/
def serializeRequest (r : GraphQLRequest) : Json :=
  Json.obj [("query", Json.str r.query),
            ("variables", match r.«variables» with
                          | none => Json.null
                          | some m => Json.obj m)]

/-- `serde_json` deserialization of a JSON value into
`HashMap<String, serde_json::Value>`: an object's entries are inserted in
order (a later duplicate key overwrites), anything else fails. -/
def deserializeVariables : Json → Option (List (String × Json))
  | .obj l => some (l.foldl (fun m p => hmInsert m p.1 p.2) [])
  | _ => none

/-- `NewRelicClient::execute_query`, from the decoded envelope onward
(main.rs lines 145-153): `if let Some(errors) = graphql_response.errors`
fails with the formatted joined messages; otherwise returns
`data.unwrap_or(Value::Null)`. -/
def execute_query (resp : GraphQLResponse) : Except String Json :=
  match resp.errors with
  | some errors =>
      .error ("GraphQL errors: " ++ String.intercalate ", " (errors.map (fun e => e.message)))
  | none => .ok (resp.data.getD Json.null)

/-- The fixed GraphQL document of `query_api_keys` (main.rs lines 164-179). -/
def queryDocument : String :=
  "\n    query($id: ID!, $keyType: ApiAccessKeyType!) \x7b\n        actor \x7b\n            apiAccess \x7b\n                key(\n                    id: $id\n                    keyType: $keyType\n                ) \x7b\n                    key\n                    name\n                    notes\n                    type\n                \x7d\n            \x7d\n        \x7d\n    \x7d"

/-- The fixed GraphQL document of `create_api_key` (main.rs lines 231-252). -/
def createDocument : String :=
  "\n        mutation($accountId: Int!, $keyType: ApiAccessKeyType!, $name: String!, $notes: String) \x7b\n            apiAccessCreateKeys(keys: [\x7b\n                accountId: $accountId,\n                keyType: $keyType,\n                name: $name,\n                notes: $notes\n            \x7d]) \x7b\n                createdKeys \x7b\n                    id\n                    name\n                    type\n                    key\n                    notes\n                \x7d\n                errors \x7b\n                    message\n                    type\n                \x7d\n            \x7d\n        \x7d\n    "

/-- The fixed GraphQL document of `update_api_key` (main.rs lines 278-297). -/
def updateDocument : String :=
  "\n        mutation($keyId: String!, $name: String, $notes: String) \x7b\n            apiAccessUpdateKeys(keys: [\x7b\n                id: $keyId,\n                name: $name,\n                notes: $notes\n            \x7d]) \x7b\n                updatedKeys \x7b\n                    id\n                    name\n                    type\n                    notes\n                \x7d\n                errors \x7b\n                    message\n                    type\n                \x7d\n            \x7d\n        \x7d\n    "

/-- The fixed GraphQL document of `delete_api_key` (main.rs lines 317-329). -/
def deleteDocument : String :=
  "\n        mutation($keyId: String!) \x7b\n            apiAccessDeleteKeys(keys: \x7bingestKeyIds: $keyId\x7d) \x7b\n                deletedKeys \x7b\n                    id\n                \x7d\n                errors \x7b\n                    message\n                    type\n                \x7d\n            \x7d\n        \x7d\n    "

/-- Variables construction of `query_api_keys` (main.rs lines 181-185):
`id` and `keyType` are inserted only when *both* `key_id` and `key_type`
were supplied; otherwise the map stays empty. -/
def query_api_keys_variables (key_type key_id : Option String) : List (String × Json) :=
  match key_id, key_type with
  | some kid, some kt =>
      hmInsert (hmInsert [] "id" (Json.str kid)) "keyType" (Json.str kt)
  | _, _ => []

/-- The request `query_api_keys` hands to `execute_query` (main.rs line 187):
always `Some(variables)`, even when the map is empty. -/
def query_api_keys_request (key_type key_id : Option String) : GraphQLRequest :=
  { query := queryDocument
    «variables» := some (query_api_keys_variables key_type key_id) }

/-- Outcome of the query path's result extraction: either the four printed
fields (main.rs lines 195-216) or the "No API keys found" branch
(main.rs line 218). -/
inductive QueryOutcome where
  | found (key name type notes : Json)
  | notFound

/-- The nested path navigation `result.get("actor").and_then(.get("apiAccess"))
.and_then(.get("key"))` (main.rs lines 190-194). -/
def query_key_path (result : Json) : Option Json :=
  ((result.get "actor").bind (fun a => a.get "apiAccess")).bind (fun a => a.get "key")

/-- Result extraction of `query_api_keys` (main.rs lines 190-219): each field
read falls back to the `"N/A"` placeholder via `unwrap_or`. -/
def query_extract (result : Json) : QueryOutcome :=
  match query_key_path result with
  | some key =>
      .found ((key.get "key").getD (Json.str "N/A"))
             ((key.get "name").getD (Json.str "N/A"))
             ((key.get "type").getD (Json.str "N/A"))
             ((key.get "notes").getD (Json.str "N/A"))
  | none => .notFound

/-- The query path end to end from a decoded envelope: `execute_query` errors
propagate (`?` operator, main.rs line 187), otherwise the extraction runs
and the function returns `Ok` (main.rs line 221). -/
def query_api_keys_run (resp : GraphQLResponse) : Except String QueryOutcome :=
  (execute_query resp).map query_extract

/-- Variables construction of `create_api_key` (main.rs lines 254-264):
`accountId` (as a JSON string), `keyType` and `name` always; `notes` only
when supplied. -/
def create_api_key_variables (account_id key_type name : String)
    (notes : Option String) : List (String × Json) :=
  let m := hmInsert (hmInsert (hmInsert [] "accountId" (Json.str account_id))
                      "keyType" (Json.str key_type)) "name" (Json.str name)
  match notes with
  | some n => hmInsert m "notes" (Json.str n)
  | none => m

/-- The request `create_api_key` hands to `execute_query` (main.rs line 266). -/
def create_api_key_request (account_id key_type name : String)
    (notes : Option String) : GraphQLRequest :=
  { query := createDocument
    «variables» := some (create_api_key_variables account_id key_type name notes) }

/-- Variables construction of `update_api_key` (main.rs lines 299-308):
`keyId` always; `name` and `notes` each only when supplied. -/
def update_api_key_variables (key_id : String)
    (name notes : Option String) : List (String × Json) :=
  let m := hmInsert [] "keyId" (Json.str key_id)
  let m := match name with
           | some n => hmInsert m "name" (Json.str n)
           | none => m
  match notes with
  | some nt => hmInsert m "notes" (Json.str nt)
  | none => m

/-- The request `update_api_key` hands to `execute_query` (main.rs line 310). -/
def update_api_key_request (key_id : String)
    (name notes : Option String) : GraphQLRequest :=
  { query := updateDocument
    «variables» := some (update_api_key_variables key_id name notes) }

/-- Variables construction of `delete_api_key` (main.rs lines 331-332):
the single entry `keyId`, a scalar string. -/
def delete_api_key_variables (key_id : String) : List (String × Json) :=
  hmInsert [] "keyId" (Json.str key_id)

/-- The request `delete_api_key` hands to `execute_query` (main.rs line 334). -/
def delete_api_key_request (key_id : String) : GraphQLRequest :=
  { query := deleteDocument
    «variables» := some (delete_api_key_variables key_id) }

/-- Claim C1, as frozen, is false on a point: the failure's message is not
*equal* to the `, `-joined error messages — `anyhow!("GraphQL errors: {}", ...)`
prefixes the literal `"GraphQL errors: "`.  With a single error `"boom"`
(and partial data present) the failure message is `"GraphQL errors: boom"`,
not the bare join `"boom"`. -/
theorem C1_counterexample :
    execute_query { data := some (Json.str "partial"),
                    errors := some [{ message := "boom", locations := none, path := none }] }
      = .error "GraphQL errors: boom"
    ∧ "GraphQL errors: boom" ≠ String.intercalate ", " ["boom"] := by
  exact ⟨rfl, by decide⟩

/-- Claim C1 (amended): for every envelope with a non-empty `errors` sequence,
`execute_query` fails, the failure's message is `"GraphQL errors: "` followed
by the `, `-joined sequence of each error's `message` in response order, and
the envelope's `data` is ignored (the outcome is the same for every `data`). -/
theorem C1_errors_joined (d : Option Json) (es : List GraphQLError) (h : es ≠ []) :
    execute_query { data := d, errors := some es }
      = .error ("GraphQL errors: " ++
          String.intercalate ", " (es.map (fun e => e.message))) := rfl

/-- Claim C1 witness: two errors `"e1"`, `"e2"` alongside partial data fail
with message `"GraphQL errors: e1, e2"`. -/
theorem C1_errors_joined_witness :
    execute_query { data := some (Json.str "partial"),
                    errors := some [{ message := "e1", locations := none, path := none },
                                    { message := "e2", locations := none, path := none }] }
      = .error "GraphQL errors: e1, e2" :=
  C1_errors_joined (some (Json.str "partial"))
    [{ message := "e1", locations := none, path := none },
     { message := "e2", locations := none, path := none }]
    (List.cons_ne_nil _ _)

/-- Claim C2, as frozen, is false for a present-but-empty `errors` sequence:
`if let Some(errors)` (main.rs line 145) matches `Some(vec![])`, so a
response decoded from `{"errors": []}` with absent `data` *fails* (with the
bare prefix as message) instead of succeeding with a null value. -/
theorem C2_counterexample :
    execute_query { data := none, errors := some [] } = .error "GraphQL errors: "
    ∧ execute_query { data := none, errors := some [] } ≠ .ok Json.null := by
  refine ⟨rfl, fun h => ?_⟩
  simp [execute_query] at h

/-- Claim C2 (amended): for every envelope whose `errors` sequence is
*absent* (`None`) and whose `data` is absent, `execute_query` succeeds and
returns the null value, never a failure. -/
theorem C2_null_data_success (resp : GraphQLResponse)
    (he : resp.errors = none) (hd : resp.data = none) :
    execute_query resp = .ok Json.null := by
  simp [execute_query, he, hd]

/-- Claim C2 witness: the envelope with both fields absent succeeds with null. -/
theorem C2_null_data_success_witness :
    execute_query { data := none, errors := none } = .ok Json.null :=
  C2_null_data_success { data := none, errors := none } rfl rfl

/-- Claim C3: the query builder's variables mapping contains the entries `id`
and `keyType` iff the caller supplied both a key id and a key type (and then
with exactly those string values); if either is missing the mapping is empty,
yet the request is still issued to `execute_query` carrying that (possibly
empty) mapping — no client-side validation error exists on this path. -/
theorem C3_query_filter_both_or_empty (key_type key_id : Option String) :
    ((hmLookup (query_api_keys_variables key_type key_id) "id").isSome ∧
       (hmLookup (query_api_keys_variables key_type key_id) "keyType").isSome
      ↔ key_id.isSome ∧ key_type.isSome)
    ∧ (∀ kid kt, key_id = some kid → key_type = some kt →
        hmLookup (query_api_keys_variables key_type key_id) "id" = some (Json.str kid) ∧
        hmLookup (query_api_keys_variables key_type key_id) "keyType" = some (Json.str kt))
    ∧ (key_id = none ∨ key_type = none → query_api_keys_variables key_type key_id = [])
    ∧ (query_api_keys_request key_type key_id).«variables»
        = some (query_api_keys_variables key_type key_id) := by
  refine ⟨?_, ?_, ?_, rfl⟩
  · cases key_id <;> cases key_type <;>
      simp [query_api_keys_variables, hmInsert, hmLookup]
  · rintro kid kt rfl rfl
    exact ⟨rfl, rfl⟩
  · rintro (rfl | rfl)
    · cases key_type <;> rfl
    · cases key_id <;> rfl

/-- Claim C3 witness: with a key type but no key id, the variables mapping is
empty (instantiating the theorem at concrete inputs). -/
theorem C3_query_filter_witness :
    query_api_keys_variables (some "USER") none = []
    ∧ hmLookup (query_api_keys_variables (some "USER") (some "k1")) "id"
        = some (Json.str "k1")
    ∧ hmLookup (query_api_keys_variables (some "USER") (some "k1")) "keyType"
        = some (Json.str "USER") :=
  ⟨(C3_query_filter_both_or_empty (some "USER") none).2.2.1 (Or.inl rfl),
   (C3_query_filter_both_or_empty (some "USER") (some "k1")).2.1 "k1" "USER" rfl rfl⟩

/-- Claim C4: the create builder's variables mapping holds exactly
`accountId` (the account id as a JSON *string* value), `keyType` and `name`
when no notes were supplied — no `notes` key is present and no other key
exists; when notes are supplied, a `notes` entry with that string value is
additionally present and nothing else changes. -/
theorem C4_create_variables (account_id key_type name : String) :
    (∀ k, hmLookup (create_api_key_variables account_id key_type name none) k
        = if k = "name" then some (Json.str name)
          else if k = "keyType" then some (Json.str key_type)
          else if k = "accountId" then some (Json.str account_id)
          else none)
    ∧ (create_api_key_variables account_id key_type name none).map Prod.fst
        = ["name", "keyType", "accountId"]
    ∧ ∀ nts k, hmLookup (create_api_key_variables account_id key_type name (some nts)) k
        = if k = "notes" then some (Json.str nts)
          else hmLookup (create_api_key_variables account_id key_type name none) k :=
  ⟨fun _ => rfl, rfl, fun _ _ => rfl⟩

/-- Claim C5: the update builder's variables mapping always holds `keyId`,
holds `name` exactly when a new name was supplied and `notes` exactly when
new notes were supplied (an absent optional is entirely omitted — its lookup
is `none`, never an explicit JSON null); with only a new name the mapping is
exactly the two entries `name` and `keyId`. -/
theorem C5_update_variables (key_id : String) (name notes : Option String) :
    (∀ k, hmLookup (update_api_key_variables key_id name notes) k
        = if k = "notes" then notes.map Json.str
          else if k = "name" then name.map Json.str
          else if k = "keyId" then some (Json.str key_id)
          else none)
    ∧ (∀ k v, hmLookup (update_api_key_variables key_id name notes) k = some v →
        ∃ s, v = Json.str s)
    ∧ ∀ n, update_api_key_variables key_id (some n) none
        = [("name", Json.str n), ("keyId", Json.str key_id)] := by
  have hchain : ∀ k, hmLookup (update_api_key_variables key_id name notes) k
      = if k = "notes" then notes.map Json.str
        else if k = "name" then name.map Json.str
        else if k = "keyId" then some (Json.str key_id)
        else none := by
    intro k
    cases name <;> cases notes <;>
      simp [update_api_key_variables, hmInsert, hmLookup] <;>
      split_ifs <;> simp_all
  refine ⟨hchain, ?_, fun n => rfl⟩
  intro k v h
  rw [hchain k] at h
  split_ifs at h <;>
    first
      | exact ⟨key_id, (Option.some.inj h).symm⟩
      | (cases notes with
          | none => cases h
          | some nt => exact ⟨nt, (Option.some.inj h).symm⟩)
      | (cases name with
          | none => cases h
          | some n => exact ⟨n, (Option.some.inj h).symm⟩)

/-- Claim C5 witness: with key id `"abc-1"` and only a new name `"new"`, the
mapping is exactly the two entries `name` and `keyId`. -/
theorem C5_update_variables_witness :
    update_api_key_variables "abc-1" (some "new") none
      = [("name", Json.str "new"), ("keyId", Json.str "abc-1")]
    ∧ ∃ s, Json.str "new" = Json.str s :=
  ⟨(C5_update_variables "abc-1" (some "new") none).2.2 "new",
   (C5_update_variables "abc-1" (some "new") none).2.1 "name" (Json.str "new") rfl⟩

/-- Claim C6: the delete builder's variables mapping is exactly the single
entry `keyId`, carrying the key id as a scalar JSON string (the `Json.str`
constructor, not `Json.arr`); the serialized POST body for deleting
`"key-999"` is the two-member object with the delete document under
`"query"` and `{"keyId": "key-999"}` under `"variables"`. -/
theorem C6_delete_request (key_id : String) :
    delete_api_key_variables key_id = [("keyId", Json.str key_id)]
    ∧ hmLookup (delete_api_key_variables key_id) "keyId" = some (Json.str key_id)
    ∧ serializeRequest (delete_api_key_request "key-999")
        = Json.obj [("query", Json.str deleteDocument),
                    ("variables", Json.obj [("keyId", Json.str "key-999")])] :=
  ⟨rfl, rfl, rfl⟩

/-- Claim C7: for *every* decoded query result whose nested path
`actor.apiAccess.key` resolves to a key object, each of the four fields is
read through the `unwrap_or` fallback (main.rs lines 198-216): an absent
field substitutes the literal `"N/A"` placeholder and a present field is
reported verbatim; in particular, a key object binding `key` to `"abc"`,
`name` to `"n"`, `type` to `"USER"` with no `notes` binding extracts to the
three values verbatim and `notes = "N/A"`. -/
theorem C7_query_extract_na (result keyObj : Json)
    (hpath : query_key_path result = some keyObj) :
    query_extract result
      = .found ((keyObj.get "key").getD (Json.str "N/A"))
               ((keyObj.get "name").getD (Json.str "N/A"))
               ((keyObj.get "type").getD (Json.str "N/A"))
               ((keyObj.get "notes").getD (Json.str "N/A"))
    ∧ (∀ f, keyObj.get f = none →
        (keyObj.get f).getD (Json.str "N/A") = Json.str "N/A")
    ∧ (∀ f v, keyObj.get f = some v →
        (keyObj.get f).getD (Json.str "N/A") = v)
    ∧ (keyObj.get "key" = some (Json.str "abc") →
        keyObj.get "name" = some (Json.str "n") →
        keyObj.get "type" = some (Json.str "USER") →
        keyObj.get "notes" = none →
        query_extract result
          = .found (Json.str "abc") (Json.str "n") (Json.str "USER")
              (Json.str "N/A")) := by
  have hgen : query_extract result
      = .found ((keyObj.get "key").getD (Json.str "N/A"))
               ((keyObj.get "name").getD (Json.str "N/A"))
               ((keyObj.get "type").getD (Json.str "N/A"))
               ((keyObj.get "notes").getD (Json.str "N/A")) := by
    simp [query_extract, hpath]
  refine ⟨hgen, fun f hf => by rw [hf]; rfl, fun f v hv => by rw [hv]; rfl,
    fun hk hn ht hno => ?_⟩
  rw [hgen, hk, hn, ht, hno]
  rfl

/-- Claim C7 witness: the concrete nested result with the three-field key
object (no `notes`) extracts to `("abc", "n", "USER", "N/A")`, and the
absent `notes` field read falls back to `"N/A"`. -/
theorem C7_query_extract_na_witness :
    query_extract (Json.obj [("actor", Json.obj [("apiAccess", Json.obj [("key",
        Json.obj [("key", Json.str "abc"), ("name", Json.str "n"),
                  ("type", Json.str "USER")])])])])
      = .found (Json.str "abc") (Json.str "n") (Json.str "USER") (Json.str "N/A")
    ∧ ((Json.obj [("key", Json.str "abc"), ("name", Json.str "n"),
          ("type", Json.str "USER")]).get "notes").getD (Json.str "N/A")
        = Json.str "N/A" :=
  ⟨(C7_query_extract_na
      (Json.obj [("actor", Json.obj [("apiAccess", Json.obj [("key",
          Json.obj [("key", Json.str "abc"), ("name", Json.str "n"),
                    ("type", Json.str "USER")])])])])
      (Json.obj [("key", Json.str "abc"), ("name", Json.str "n"),
                 ("type", Json.str "USER")])
      rfl).2.2.2 rfl rfl rfl rfl,
   (C7_query_extract_na
      (Json.obj [("actor", Json.obj [("apiAccess", Json.obj [("key",
          Json.obj [("key", Json.str "abc"), ("name", Json.str "n"),
                    ("type", Json.str "USER")])])])])
      (Json.obj [("key", Json.str "abc"), ("name", Json.str "n"),
                 ("type", Json.str "USER")])
      rfl).2.1 "notes" rfl⟩

/-- Claim C8: when the envelope decodes without errors but its data lacks the
nested path `actor.apiAccess.key` (any of the three segments missing, so the
navigation yields `None`), the query path produces the "not found" outcome
and returns success — never an error and never a crash (main.rs lines
190-221: the `else` branch prints and the function returns `Ok(())`). -/
theorem C8_query_not_found (resp : GraphQLResponse) (d : Json)
    (he : resp.errors = none) (hd : resp.data = some d)
    (hpath : query_key_path d = none) :
    query_api_keys_run resp = .ok QueryOutcome.notFound := by
  simp [query_api_keys_run, execute_query, he, hd, Except.map, query_extract, hpath]

/-- Claim C8 witness: an error-free envelope whose data is the empty object
(so `actor` itself is missing) yields the "not found" success. -/
theorem C8_query_not_found_witness :
    query_api_keys_run { data := some (Json.obj []), errors := none }
      = .ok QueryOutcome.notFound :=
  C8_query_not_found { data := some (Json.obj []), errors := none } (Json.obj [])
    rfl rfl rfl


/-- A key absent from the entry list looks up to nothing. -/
theorem hmLookup_eq_none_of_not_mem {l : List (String × Json)} {k : String}
    (h : k ∉ l.map Prod.fst) : hmLookup l k = none := by
  induction l with
  | nil => rfl
  | cons p t ih =>
      simp only [List.map_cons, List.mem_cons] at h
      push_neg at h
      simp [hmLookup, h.1, ih h.2]

/-- Filtering out a key other than the one looked up does not change lookup. -/
theorem hmLookup_filter_ne {l : List (String × Json)} {a k : String}
    (hka : k ≠ a) : hmLookup (l.filter (fun p => p.1 != a)) k = hmLookup l k := by
  induction l with
  | nil => rfl
  | cons p t ih =>
      by_cases hpa : p.1 = a
      · have hkp : k ≠ p.1 := fun h => hka (h.trans hpa)
        simp [List.filter_cons, hpa, hmLookup, hkp, hka, ih]
      · simp only [List.filter_cons, bne_iff_ne, ne_eq, hpa, not_false_eq_true,
          decide_true_eq_true]
        by_cases hkp : k = p.1
        · simp [hmLookup, hkp]
        · simp [hmLookup, hkp, ih]

/-- Lookup after `hmInsert`: the inserted key wins, other keys are untouched. -/
theorem hmLookup_insert (m : List (String × Json)) (a : String) (v : Json)
    (k : String) :
    hmLookup (hmInsert m a v) k = if k = a then some v else hmLookup m k := by
  unfold hmInsert
  by_cases hka : k = a
  · simp [hmLookup, hka]
  · simp [hmLookup, hka, hmLookup_filter_ne hka]

/-- Lookup is invariant under permutation of the entries when the keys are
distinct: the mapping is unordered. -/
theorem hmLookup_perm {l₁ l₂ : List (String × Json)} (h : l₁.Perm l₂)
    (hnd : (l₁.map Prod.fst).Nodup) (k : String) :
    hmLookup l₁ k = hmLookup l₂ k := by
  induction h with
  | nil => rfl
  | cons p h ih =>
      simp only [List.map_cons, List.nodup_cons] at hnd
      simp [hmLookup, ih hnd.2]
  | swap p q t =>
      simp only [List.map_cons, List.nodup_cons, List.mem_cons] at hnd
      have hqp : q.1 ≠ p.1 := fun hh => hnd.1 (Or.inl hh)
      by_cases h1 : k = q.1 <;> by_cases h2 : k = p.1 <;>
        simp_all [hmLookup]
  | trans h₁ h₂ ih₁ ih₂ =>
      exact (ih₁ hnd).trans (ih₂ ((h₁.map Prod.fst).nodup hnd))

/-- Folding `hmInsert` over an entry list with distinct keys (the
deserialization loop) looks up like the list itself, falling back to the
initial map for keys absent from the list. -/
theorem hmLookup_foldl_insert (l : List (String × Json))
    (hnd : (l.map Prod.fst).Nodup) (init : List (String × Json)) (k : String) :
    hmLookup (l.foldl (fun m p => hmInsert m p.1 p.2) init) k
      = (hmLookup l k).or (hmLookup init k) := by
  induction l generalizing init with
  | nil => simp [hmLookup]
  | cons p t ih =>
      simp only [List.map_cons, List.nodup_cons] at hnd
      simp only [List.foldl_cons]
      rw [ih hnd.2]
      by_cases hkp : k = p.1
      · subst hkp
        rw [hmLookup_eq_none_of_not_mem hnd.1]
        simp [hmLookup, hmLookup_insert]
      · rw [hmLookup_insert]
        simp [hmLookup, hkp]

/-- Claim C9: serializing a variables mapping as the `variables` member of
the request body and decoding that member back yields a mapping with exactly
the same key/value pairs (identical lookups), for *every* iteration order
`l` in which the unordered `HashMap` may emit its entries (any permutation
of the mapping's entries; `hnd` is the `HashMap` invariant that keys are
unique). -/
theorem C9_variables_roundtrip (q : String) (m l : List (String × Json))
    (hperm : l.Perm m) (hnd : (m.map Prod.fst).Nodup) :
    (serializeRequest { query := q, «variables» := some l }).get "variables"
        = some (Json.obj l)
    ∧ ∃ m', deserializeVariables (Json.obj l) = some m'
        ∧ ∀ k, hmLookup m' k = hmLookup m k := by
  constructor
  · rfl
  refine ⟨_, rfl, fun k => ?_⟩
  have hndl : (l.map Prod.fst).Nodup := ((hperm.map Prod.fst).nodup_iff).mpr hnd
  rw [hmLookup_foldl_insert l hndl [] k, hmLookup_perm hperm hndl k]
  cases hmLookup m k <;> rfl

/-- Claim C9 witness: the two-entry mapping `a`/`b` serialized in the swapped
order decodes back to a mapping with the same lookups. -/
theorem C9_variables_roundtrip_witness :
    (serializeRequest { query := "q", «variables» := some [("b", Json.str "2"), ("a", Json.str "1")] }).get "variables"
        = some (Json.obj [("b", Json.str "2"), ("a", Json.str "1")])
    ∧ ∃ m', deserializeVariables (Json.obj [("b", Json.str "2"), ("a", Json.str "1")])
          = some m'
        ∧ ∀ k, hmLookup m' k = hmLookup [("a", Json.str "1"), ("b", Json.str "2")] k :=
  C9_variables_roundtrip "q"
    [("a", Json.str "1"), ("b", Json.str "2")]
    [("b", Json.str "2"), ("a", Json.str "1")]
    (List.Perm.swap _ _ _) (by simp)

/-- Claim C10: all four operations hand `execute_query` a present (`Some`)
variables mapping, so the serialized body always carries a `"variables"`
member — the empty object for the incomplete query filter — and the
`"variables"`-omitted (JSON null) form of the wire body is never produced
by any operation. -/
theorem C10_always_some_variables (kt kid : Option String)
    (account_id key_type name : String) (notes : Option String)
    (ukey : String) (uname unotes : Option String) (dkey : String) :
    ((query_api_keys_request kt kid).«variables»).isSome
    ∧ ((create_api_key_request account_id key_type name notes).«variables»).isSome
    ∧ ((update_api_key_request ukey uname unotes).«variables»).isSome
    ∧ ((delete_api_key_request dkey).«variables»).isSome
    ∧ (serializeRequest (query_api_keys_request kt kid)).get "variables"
        = some (Json.obj (query_api_keys_variables kt kid))
    ∧ (serializeRequest (create_api_key_request account_id key_type name notes)).get "variables"
        = some (Json.obj (create_api_key_variables account_id key_type name notes))
    ∧ (serializeRequest (update_api_key_request ukey uname unotes)).get "variables"
        = some (Json.obj (update_api_key_variables ukey uname unotes))
    ∧ (serializeRequest (delete_api_key_request dkey)).get "variables"
        = some (Json.obj (delete_api_key_variables dkey))
    ∧ (kt = none ∨ kid = none →
        (serializeRequest (query_api_keys_request kt kid)).get "variables"
          = some (Json.obj [])) := by
  refine ⟨rfl, rfl, rfl, rfl, rfl, rfl, rfl, rfl, ?_⟩
  rintro (rfl | rfl)
  · cases kid <;> rfl
  · cases kt <;> rfl

/-- Claim C10 witness: with a key id but no key type, the query request's
serialized body still carries `"variables"`, as the empty object. -/
theorem C10_always_some_variables_witness :
    (serializeRequest (query_api_keys_request none (some "k"))).get "variables"
      = some (Json.obj []) :=
  (C10_always_some_variables none (some "k") "a" "t" "n" none "u" none none
      "d").2.2.2.2.2.2.2.2 (Or.inl rfl)
